import Mathlib

set_option maxRecDepth 8192

/-!
Verification development for the `mvn_get` Maven artifact downloader
(src/packaging/language/mvn_get.py).

The Python module is shallowly embedded below.  Strings are Lean `String`s,
Python `None`-able strings are `Option String`, Python exceptions are the
explicit error type `MvnError` (the module's own `ArtifactError`,
`DownloaderError` and `Error` classes, plus a `pyError` constructor for
exceptions the module never catches, such as `TypeError` or `IndexError`).
The network is an oracle `Remote` mapping a URL to an outcome; the filesystem
interaction of `download` is reduced to the contents of the (single)
destination file plus booleans for the `os.path` tests the code performs.
The MD5 digest (`hashlib.md5(...).hexdigest()` over the file bytes) is
abstracted as a function parameter `md5fn : String → String`, since the code
only ever compares its output for equality.
-/

namespace MvnGet

/-- Error taxonomy of the module.  `artifactError` is `ArtifactError`,
`downloaderError` is `DownloaderError` (carrying the URL and the context
message), `plainError` is the base `Error` class (note: the Python
`Error.__init__` actually fails to store its message — `self.message` without
assignment — which does not affect control flow; we carry the message that was
passed at the raise site), and `pyError` is any Python exception the module
never raises or catches itself (`TypeError`, `IndexError`, `AttributeError`,
XML `ParseError`, socket errors during body reads). -/
inductive MvnError where
  | artifactError (msg : String)
  | downloaderError (url : String) (msg : String)
  | plainError (msg : String)
  | pyError (kind : String)
deriving DecidableEq

/-- True when the error is the module's `ArtifactError` ("artifact not found"
class of failures). -/
def MvnError.isArtifactError : MvnError → Bool
  | .artifactError _ => true
  | _ => false

/-- Python truthiness of an optional string: `None` and `''` are falsy. -/
def truthy : Option String → Bool
  | none => false
  | some s => decide (s ≠ "")

/-- Python `x or y` for optional strings (used by `main()` to merge parsed
coordinate fields with the module parameters). -/
def orOpt (a b : Option String) : Option String :=
  if truthy a = true then a else b

/-- Splitting a character list at every occurrence of a separator, keeping
empty segments: the semantics of Python `str.split` with a one-character
separator (`''.split(':') == ['']`, `':'.split(':') == ['', '']`). -/
def splitCh (sep : Char) : List Char → List (List Char)
  | [] => [[]]
  | c :: rest =>
    if c = sep then [] :: splitCh sep rest
    else
      match splitCh sep rest with
      | [] => [[c]]
      | h :: t => (c :: h) :: t

/-- Interleaving a separator between character-list segments: the semantics of
Python `sep.join(...)` at character level. -/
def joinCh (sep : Char) : List (List Char) → List Char
  | [] => []
  | [p] => p
  | p :: q :: ps => p ++ sep :: joinCh sep (q :: ps)

/-- Python `input.split(':')`. -/
def splitColon (s : String) : List String :=
  (splitCh ':' s.data).map String.mk

/-- Python `':'.join(parts)`. -/
def intercalateColon (ps : List String) : String :=
  String.mk (joinCh ':' (ps.map String.data))

/-- Python `s.endswith(t)`. -/
def strEndsWith (s t : String) : Bool :=
  t.data.isSuffixOf s.data

/-- Python `group_id.replace('.', '/')` (single-character pattern, so a
character map). -/
def dotsToSlashes (s : String) : String :=
  String.mk (s.data.map (fun c => if c = '.' then '/' else c))

/-- The `Artifact` class: Maven coordinates.  `version`, `classifier` and
`extension` default to `None` in the Python constructor; in particular the
class itself does not default `extension` to `"jar"` — that default is applied
by `main()` via the module parameters. -/
structure Artifact where
  group_id : String
  artifact_id : String
  version : Option String
  classifier : Option String
  extension : Option String
deriving DecidableEq

/-- Python `Artifact.__init__`: raises `ArtifactError` when `group_id` or
`artifact_id` is falsy (here: the empty string). -/
def Artifact.mk? (g a : String) (v c t : Option String) : Except MvnError Artifact :=
  if g = "" ∨ a = "" then
    .error (.artifactError "artifact_id and group_id must be provided")
  else
    .ok ⟨g, a, v, c, t⟩

/-- Python `Artifact.is_snapshot`: `self.version.endswith('SNAPSHOT')`; on a `None`
version Python raises `AttributeError`. -/
def Artifact.is_snapshot (art : Artifact) : Except MvnError Bool :=
  match art.version with
  | none => .error (.pyError "AttributeError")
  | some v => .ok (strEndsWith v "SNAPSHOT")

/-- Python `Artifact.path(with_version)`: `group.replace('.','/') + '/' + artifact`
plus `'/' + version` when requested; concatenating a `None` version raises
`TypeError`. -/
def Artifact.path (art : Artifact) (withVersion : Bool) : Except MvnError String :=
  let base := dotsToSlashes art.group_id ++ "/" ++ art.artifact_id
  if withVersion = true then
    match art.version with
    | none => .error (.pyError "TypeError")
    | some v => .ok (base ++ "/" ++ v)
  else
    .ok base

/-- Python `Artifact.filename`: `artifact_id[-classifier].extension`; a `None`
extension raises `TypeError`. -/
def Artifact.filename (art : Artifact) : Except MvnError String :=
  let s := art.artifact_id ++ (if truthy art.classifier = true then "-" ++ art.classifier.getD "" else "")
  match art.extension with
  | none => .error (.pyError "TypeError")
  | some ext => .ok (s ++ "." ++ ext)

/-- Python `':'.join(a)` over a list that may contain `None`: joining with a
`None` element raises `TypeError`. -/
def joinOpt (l : List (Option String)) : Except MvnError String :=
  if l.all (fun o => o.isSome) then .ok (intercalateColon (l.filterMap id))
  else .error (.pyError "TypeError")

/-- Python `Artifact.__str__`: emits `group:artifact`, appends the extension only when
it differs from `'jar'` or a classifier is present, then the classifier and
the version when truthy. -/
def Artifact.toStr (art : Artifact) : Except MvnError String :=
  let a0 : List (Option String) := [some art.group_id, some art.artifact_id]
  let a1 := if art.extension ≠ some "jar" ∨ truthy art.classifier = true then a0 ++ [art.extension] else a0
  let a2 := if truthy art.classifier = true then a1 ++ [art.classifier] else a1
  let a3 := if truthy art.version = true then a2 ++ [art.version] else a2
  joinOpt a3

/-- Python `Artifact.parse`: segment-count driven field assignment.
`parts = input.split(':')`; fewer than 2 parts raises `ArtifactError`;
`version = parts[-1]` from 3 parts on, `extension = parts[2]` from 4 parts on,
`classifier = parts[3]` from 5 parts on. -/
def Artifact.parse (input : String) : Except MvnError Artifact :=
  if (splitColon input).length < 2 then
    .error (.artifactError ("invalid Maven coordinates: " ++ input))
  else
    Artifact.mk? ((splitColon input).getD 0 "") ((splitColon input).getD 1 "")
      (if 3 ≤ (splitColon input).length then some ((splitColon input).getLastD "") else none)
      (if 5 ≤ (splitColon input).length then some ((splitColon input).getD 3 "") else none)
      (if 4 ≤ (splitColon input).length then some ((splitColon input).getD 2 "") else none)

/-- The coordinate-string ingestion path of `main()`: `Artifact.parse(p.name)`
followed by `artifact.version = artifact.version or p.version` (and likewise
for classifier and extension), with the module-parameter defaults
`version=None`, `classifier=None`, `extension='jar'`. -/
def parseCoord (s : String) : Except MvnError Artifact :=
  (Artifact.parse s).map (fun art =>
    { art with
        version := orOpt art.version none,
        classifier := orOpt art.classifier none,
        extension := orOpt art.extension (some "jar") })

/-- An XML element as consumed from `maven-metadata.xml`:
tag, text content and child elements. -/
inductive XmlElem where
  | node (tag : String) (text : Option String) (children : List XmlElem)

/-- Tag of an element. -/
def XmlElem.tag : XmlElem → String
  | .node t _ _ => t

/-- Text content of an element (`None` when absent). -/
def XmlElem.text : XmlElem → Option String
  | .node _ tx _ => tx

/-- Child elements. -/
def XmlElem.children : XmlElem → List XmlElem
  | .node _ _ cs => cs

/-- Direct children with the given tag, in document order. -/
def childrenNamed (e : XmlElem) (t : String) : List XmlElem :=
  e.children.filter (fun c => decide (c.tag = t))

/-- Python `ElementTree.findtext(tag)` on direct children: `None` when no child with
the tag exists, the child's text (or `''` when the child has no text)
otherwise. -/
def XmlElem.findtext (e : XmlElem) (t : String) : Option String :=
  match childrenNamed e t with
  | [] => none
  | c :: _ => some (c.text.getD "")

/-- Python `ElementTree.findall('./a/b/c')`: nested child traversal in document
order. -/
def findallPath (e : XmlElem) (p : List String) : List XmlElem :=
  p.foldl (fun acc t => acc.flatMap (fun x => childrenNamed x t)) [e]

/-- A fetched resource: the raw body text and what `ET.parse` would yield on
it (`none` meaning the XML parser would raise `ParseError`). -/
structure Resource where
  raw : String
  parsed : Option XmlElem

/-- Outcome of one HTTP GET: the transport-level connection may fail
(`urllib2` raises `HTTPError`/`URLError`, which `_request` wraps in
`DownloaderError`), or the connection may succeed but reading the response
body fail later (a socket error the module never catches). -/
inductive FetchOutcome where
  | ok (r : Resource)
  | connectError
  | readError

/-- The remote repository as an oracle from URL to fetch outcome.  The
`User-Agent` and HTTP Basic auth headers that `_request` attaches do not
influence the module's control flow and are absorbed into the oracle. -/
def Remote : Type := String → FetchOutcome

/-- The `MavenDownloader` state the embedded logic depends on: the base URL.
Credentials only affect request headers and are absorbed into `Remote`. -/
structure MavenDownloader where
  base : String

/-- Python `MavenDownloader.__init__`: strips one trailing slash from the base URL. -/
def mkDownloader (base : String) : MavenDownloader :=
  ⟨if strEndsWith base "/" = true then String.mk base.data.dropLast else base⟩

/-- Python `_request(url, failmsg, lambda r: ET.parse(r))`: connection failure wraps
into `DownloaderError`; a read failure while parsing, or a malformed body,
raises an exception (`socket.error` / `ParseError`) the module never catches.
Returns the list of URLs requested together with the result. -/
def requestXml (remote : Remote) (url : String) (failmsg : String) :
    List String × Except MvnError XmlElem :=
  ([url],
   match remote url with
   | .connectError => .error (.downloaderError url failmsg)
   | .readError => .error (.pyError "socket.error")
   | .ok r =>
     match r.parsed with
     | some doc => .ok doc
     | none => .error (.pyError "xml.etree.ElementTree.ParseError"))

/-- Python `MavenDownloader._find_latest_version_available`: fetches
`{base}/{group-as-path}/{artifact}/maven-metadata.xml`, then returns
`xml.findall('./versioning/versions/version')[-1].text`.  The `[-1]` indexing
of an empty result list raises `IndexError` (the `if not xml` guard in the
source never fires: an `ElementTree` instance is always truthy). -/
def findLatestVersionAvailable (d : MavenDownloader) (remote : Remote) (art : Artifact) :
    List String × Except MvnError (Option String) :=
  match Artifact.path art false with
  | .error e => ([], .error e)
  | .ok p =>
    let url := d.base ++ "/" ++ p ++ "/maven-metadata.xml"
    ((requestXml remote url "Failed to download maven-metadata.xml").1,
     match (requestXml remote url "Failed to download maven-metadata.xml").2 with
     | .error e => .error e
     | .ok doc =>
       match (findallPath doc ["versioning", "versions", "version"]).getLast? with
       | none => .error (.pyError "IndexError")
       | some e => .ok e.text)

/-- Python `MavenDownloader._uri_for_artifact`: release URLs use the artifact's own
version for both the path segment and the filename token; snapshot URLs
require the resolved timestamped `version` argument for the filename token
while the path segment keeps the `-SNAPSHOT` version; a snapshot without a
truthy `version` argument raises `ArtifactError`. -/
def uriForArtifact (d : MavenDownloader) (art : Artifact) (version : Option String) :
    Except MvnError String :=
  match art.is_snapshot with
  | .error e => .error e
  | .ok snap =>
    if snap = true ∧ truthy version = false then
      .error (.artifactError "Expected unique version for snapshot artifact")
    else
      let version' := if snap = false then art.version else version
      match Artifact.path art true with
      | .error e => .error e
      | .ok p =>
        let uri := d.base ++ "/" ++ p ++ "/" ++ art.artifact_id ++ "-" ++ version'.getD "None"
        let uri2 := if truthy art.classifier = true then uri ++ "-" ++ art.classifier.getD "" else uri
        match art.extension with
        | none => .error (.pyError "TypeError")
        | some ext => .ok (uri2 ++ "." ++ ext)

/-- The two filtering stages of `_find_matching_artifact`: keep elements whose
`extension` child equals the artifact's extension, then — when the artifact
has a truthy classifier — those whose `classifier` child equals it. -/
def filteredSnapshots (elems : List XmlElem) (art : Artifact) : List XmlElem :=
  let f1 := elems.filter (fun e => decide (e.findtext "extension" = art.extension))
  if truthy art.classifier = true then
    f1.filter (fun e => decide (e.findtext "classifier" = art.classifier))
  else f1

/-- Python `MavenDownloader._find_matching_artifact`: filter the `snapshotVersion`
elements by `extension` child, then (when the artifact has a truthy
classifier) by `classifier` child; no survivor raises `ArtifactError`,
otherwise the first survivor's `value` child is the resolved timestamped
version handed to `_uri_for_artifact`. -/
def findMatchingArtifact (d : MavenDownloader) (elems : List XmlElem) (art : Artifact) :
    Except MvnError String :=
  match filteredSnapshots elems art with
  | [] => .error (.artifactError "Artifact not found")
  | e :: _ => uriForArtifact d art (e.findtext "value")

/-- Python `MavenDownloader.find_uri_for_artifact`: snapshots go through the
version-directory `maven-metadata.xml` and `_find_matching_artifact`;
releases go directly to `_uri_for_artifact`. -/
def findUriForArtifact (d : MavenDownloader) (remote : Remote) (art : Artifact) :
    List String × Except MvnError String :=
  match art.is_snapshot with
  | .error e => ([], .error e)
  | .ok true =>
    match Artifact.path art true with
    | .error e => ([], .error e)
    | .ok p =>
      let url := d.base ++ "/" ++ p ++ "/maven-metadata.xml"
      ((requestXml remote url "Failed to download maven-metadata.xml").1,
       match (requestXml remote url "Failed to download maven-metadata.xml").2 with
       | .error e => .error e
       | .ok doc =>
         findMatchingArtifact d (findallPath doc ["versioning", "snapshotVersions", "snapshotVersion"]) art)
  | .ok false => ([], uriForArtifact d art none)

/-- Python `MavenDownloader._is_same_md5`: `False` when the local file does not exist
(without any network access); otherwise fetches `{url}.md5` and compares the
sidecar text with the digest of the local contents. -/
def isSameMd5 (md5fn : String → String) (remote : Remote) (localFile : Option String)
    (md5url : String) : List String × Except MvnError Bool :=
  match localFile with
  | none => ([], .ok false)
  | some contents =>
    ([md5url],
     match remote md5url with
     | .connectError => .error (.downloaderError md5url "Failed to download MD5")
     | .readError => .error (.pyError "socket.error")
     | .ok r => .ok (decide (md5fn contents = r.raw)))

/-- Observable result of one `MavenDownloader.download` invocation:
the URLs requested in order, whether the destination file was opened for
writing (`open(dest, 'w')`, which truncates it), whether the body was written,
the final contents of the destination file (`none` = file absent), and the
returned `changed` flag or the raised error. -/
structure DlRes where
  requests : List String
  opened : Bool
  wrote : Bool
  file : Option String
  outcome : Except MvnError Bool

/-- Python `MavenDownloader.download`.  `destIsDir` is `path.isdir(dest)`,
`parentExists` is `path.isdir(path.dirname(dest))`, `local0` the prior
contents of the (resolved) destination file.  Mirrors the source line by
line: destination check, latest-version resolution when the version is falsy,
URI construction, `str(artifact)` for the result dict, the MD5 sidecar
comparison, and finally the content fetch — where `open(dest, 'w')` truncates
the destination before `check_mode` is consulted, and a body-read failure
surfaces after the truncation. -/
def download (d : MavenDownloader) (md5fn : String → String) (remote : Remote)
    (art : Artifact) (destIsDir parentExists : Bool) (local0 : Option String)
    (checkMode : Bool) : DlRes :=
  let destStep : Except MvnError Unit :=
    if destIsDir = true then Except.map (fun _ => ()) art.filename
    else if parentExists = false then .error (.plainError "Destination directory does not exist")
    else .ok ()
  match destStep with
  | .error e => ⟨[], false, false, local0, .error e⟩
  | .ok _ =>
    let step2 : List String × Except MvnError Artifact :=
      if truthy art.version = true then ([], .ok art)
      else
        ((findLatestVersionAvailable d remote art).1,
         Except.map (fun v => { art with version := v }) (findLatestVersionAvailable d remote art).2)
    match step2.2 with
    | .error e => ⟨step2.1, false, false, local0, .error e⟩
    | .ok art1 =>
      match (findUriForArtifact d remote art1).2 with
      | .error e => ⟨step2.1 ++ (findUriForArtifact d remote art1).1, false, false, local0, .error e⟩
      | .ok url =>
        match art1.toStr with
        | .error e => ⟨step2.1 ++ (findUriForArtifact d remote art1).1, false, false, local0, .error e⟩
        | .ok nm =>
          match (isSameMd5 md5fn remote local0 (url ++ ".md5")).2 with
          | .error e =>
            ⟨step2.1 ++ (findUriForArtifact d remote art1).1 ++ (isSameMd5 md5fn remote local0 (url ++ ".md5")).1,
             false, false, local0, .error e⟩
          | .ok true =>
            ⟨step2.1 ++ (findUriForArtifact d remote art1).1 ++ (isSameMd5 md5fn remote local0 (url ++ ".md5")).1,
             false, false, local0, .ok false⟩
          | .ok false =>
            match remote url with
            | .connectError =>
              ⟨step2.1 ++ (findUriForArtifact d remote art1).1 ++ (isSameMd5 md5fn remote local0 (url ++ ".md5")).1 ++ [url],
               false, false, local0, .error (.downloaderError url ("Failed to download artifact " ++ nm))⟩
            | .readError =>
              ⟨step2.1 ++ (findUriForArtifact d remote art1).1 ++ (isSameMd5 md5fn remote local0 (url ++ ".md5")).1 ++ [url],
               true, false, some "", .error (.pyError "socket.error")⟩
            | .ok r =>
              if checkMode = true then
                ⟨step2.1 ++ (findUriForArtifact d remote art1).1 ++ (isSameMd5 md5fn remote local0 (url ++ ".md5")).1 ++ [url],
                 true, false, some "", .ok true⟩
              else
                ⟨step2.1 ++ (findUriForArtifact d remote art1).1 ++ (isSameMd5 md5fn remote local0 (url ++ ".md5")).1 ++ [url],
                 true, true, some r.raw, .ok true⟩

/-! Concrete fixtures used to evaluate the definitions on specific inputs. -/

/-- Example downloader with base URL `http://r`. -/
def exD : MavenDownloader := mkDownloader "http://r"

/-- Example digest function standing in for the MD5 hex digest. -/
def exMd5 : String → String := fun s => "H" ++ s

/-- Example release artifact `g:a:1.0` with the default `jar` extension. -/
def exArt : Artifact := ⟨"g", "a", some "1.0", none, some "jar"⟩

/-- Example snapshot artifact `g:a:1.0-SNAPSHOT`. -/
def exArtSnap : Artifact := ⟨"g", "a", some "1.0-SNAPSHOT", none, some "jar"⟩

/-- Example remote: serves the artifact body `"NEW"` and a matching MD5
sidecar `"HNEW"` for `g:a:1.0` under `http://r`. -/
def exRemote : Remote := fun u =>
  if u = "http://r/g/a/1.0/a-1.0.jar.md5" then .ok ⟨"HNEW", none⟩
  else if u = "http://r/g/a/1.0/a-1.0.jar" then .ok ⟨"NEW", none⟩
  else .connectError

/-- Example remote whose artifact-content connection succeeds but whose body
read fails mid-transfer. -/
def exRemoteRead : Remote := fun u =>
  if u = "http://r/g/a/1.0/a-1.0.jar.md5" then .ok ⟨"HNEW", none⟩
  else if u = "http://r/g/a/1.0/a-1.0.jar" then .readError
  else .connectError

/-- Example remote serving release metadata for `g:a` whose
`versioning/versions` list is empty. -/
def exRemoteEmptyMeta : Remote := fun u =>
  if u = "http://r/g/a/maven-metadata.xml" then
    .ok ⟨"<metadata/>", some (.node "metadata" none [.node "versioning" none [.node "versions" none []]])⟩
  else .connectError

/-- Example `snapshotVersion` metadata element with extension `jar` and value
`1.0-20230101.120000-1`. -/
def elemJar : XmlElem :=
  .node "snapshotVersion" none
    [.node "extension" (some "jar") [], .node "value" (some "1.0-20230101.120000-1") []]

/-- Example `snapshotVersion` metadata element with extension `pom`. -/
def elemPom : XmlElem :=
  .node "snapshotVersion" none
    [.node "extension" (some "pom") [], .node "value" (some "1.0-20230101.120000-1") []]

/-! Splitting and joining lemmas. -/

theorem splitCh_ne_nil (sep : Char) (l : List Char) : splitCh sep l ≠ [] := by
  induction l with
  | nil => simp [splitCh]
  | cons c rest ih =>
    simp only [splitCh]
    split
    · simp
    · split
      · simp
      · simp

theorem sep_not_mem_of_mem_splitCh (sep : Char) (l : List Char) :
    ∀ p ∈ splitCh sep l, sep ∉ p := by
  induction l with
  | nil =>
    intro p hp
    simp only [splitCh, List.mem_singleton] at hp
    subst hp
    simp
  | cons c rest ih =>
    intro p hp
    simp only [splitCh] at hp
    by_cases hc : c = sep
    · rw [if_pos hc] at hp
      rcases List.mem_cons.mp hp with h1 | h1
      · subst h1
        simp
      · exact ih p h1
    · rw [if_neg hc] at hp
      rcases hsp : splitCh sep rest with _ | ⟨hd, tl⟩
      · exact absurd hsp (splitCh_ne_nil sep rest)
      · rw [hsp] at hp
        rcases List.mem_cons.mp hp with h1 | h1
        · subst h1
          intro hm
          rcases List.mem_cons.mp hm with h2 | h2
          · exact hc h2.symm
          · exact ih hd (by rw [hsp]; exact List.mem_cons_self hd tl) h2
        · exact ih p (by rw [hsp]; exact List.mem_cons_of_mem hd h1)

theorem splitCh_of_not_mem (sep : Char) (p : List Char) (h : sep ∉ p) :
    splitCh sep p = [p] := by
  induction p with
  | nil => simp [splitCh]
  | cons c rest ih =>
    have hc : ¬ c = sep := by
      intro hc
      exact h (by simp [hc])
    have hrest : sep ∉ rest := fun hm => h (List.mem_cons_of_mem c hm)
    simp only [splitCh, if_neg hc, ih hrest]

theorem splitCh_append_sep (sep : Char) (p r : List Char) (h : sep ∉ p) :
    splitCh sep (p ++ sep :: r) = p :: splitCh sep r := by
  induction p with
  | nil => simp [splitCh]
  | cons c rest ih =>
    have hc : ¬ c = sep := by
      intro hc
      exact h (by simp [hc])
    have hrest : sep ∉ rest := fun hm => h (List.mem_cons_of_mem c hm)
    simp only [List.cons_append, splitCh, if_neg hc, List.append_eq]
    rw [ih hrest]

theorem splitCh_joinCh (sep : Char) (ps : List (List Char)) (hne : ps ≠ [])
    (hfree : ∀ p ∈ ps, sep ∉ p) : splitCh sep (joinCh sep ps) = ps := by
  induction ps with
  | nil => exact absurd rfl hne
  | cons p ps ih =>
    cases ps with
    | nil => simpa [joinCh] using splitCh_of_not_mem sep p (hfree p (by simp))
    | cons q qs =>
      have h1 : sep ∉ p := hfree p (by simp)
      have h2 : ∀ x ∈ q :: qs, sep ∉ x := fun x hx => hfree x (List.mem_cons_of_mem p hx)
      simp only [joinCh, splitCh_append_sep sep p _ h1]
      rw [ih (by simp) h2]

theorem data_mk (l : List Char) : (String.mk l).data = l := rfl

theorem mk_data (s : String) : String.mk s.data = s := rfl

theorem splitColon_intercalateColon (ps : List String) (hne : ps ≠ [])
    (hfree : ∀ p ∈ ps, ':' ∉ p.data) : splitColon (intercalateColon ps) = ps := by
  unfold splitColon intercalateColon
  rw [data_mk, splitCh_joinCh ':' (ps.map String.data) (by simpa using hne)
    (by intro p hp; rcases List.mem_map.mp hp with ⟨q, hq, rfl⟩; exact hfree q hq)]
  rw [List.map_map]
  have : (String.mk ∘ String.data) = id := funext fun p => rfl
  rw [this, List.map_id]

theorem colon_not_mem_of_mem_splitColon (s : String) :
    ∀ p ∈ splitColon s, ':' ∉ p.data := by
  intro p hp
  rcases List.mem_map.mp hp with ⟨q, hq, rfl⟩
  exact sep_not_mem_of_mem_splitCh ':' s.data q hq

theorem getLastD_mem {α : Type} (l : List α) (d : α) (h : l ≠ []) : l.getLastD d ∈ l := by
  rw [List.getLastD_eq_getLast?, List.getLast?_eq_getLast_of_ne_nil h]
  simp only [Option.getD_some]
  exact List.getLast_mem h

/-! Claim theorems. -/

/-- Claim C5: `Artifact.parse` assigns fields strictly by colon-segment count:
2 segments give group and artifact only; 3 additionally set `version` to the
last segment; 4 set `extension` to segment 2 and `version` to the last; 5 set
`extension` to segment 2, `classifier` to segment 3 and `version` to the
last; fewer than 2 segments fail with the coordinate-format `ArtifactError`.
(The ok cases assume the group and artifact segments are non-empty, since the
`Artifact` constructor otherwise rejects the coordinate.) -/
theorem parse_segment_assignment (s : String) :
    ((splitColon s).length < 2 →
       Artifact.parse s = .error (.artifactError ("invalid Maven coordinates: " ++ s))) ∧
    ((splitColon s).length = 2 → (splitColon s).getD 0 "" ≠ "" → (splitColon s).getD 1 "" ≠ "" →
       Artifact.parse s = .ok ⟨(splitColon s).getD 0 "", (splitColon s).getD 1 "", none, none, none⟩) ∧
    ((splitColon s).length = 3 → (splitColon s).getD 0 "" ≠ "" → (splitColon s).getD 1 "" ≠ "" →
       Artifact.parse s = .ok ⟨(splitColon s).getD 0 "", (splitColon s).getD 1 "",
         some ((splitColon s).getLastD ""), none, none⟩) ∧
    ((splitColon s).length = 4 → (splitColon s).getD 0 "" ≠ "" → (splitColon s).getD 1 "" ≠ "" →
       Artifact.parse s = .ok ⟨(splitColon s).getD 0 "", (splitColon s).getD 1 "",
         some ((splitColon s).getLastD ""), none, some ((splitColon s).getD 2 "")⟩) ∧
    ((splitColon s).length = 5 → (splitColon s).getD 0 "" ≠ "" → (splitColon s).getD 1 "" ≠ "" →
       Artifact.parse s = .ok ⟨(splitColon s).getD 0 "", (splitColon s).getD 1 "",
         some ((splitColon s).getLastD ""), some ((splitColon s).getD 3 ""),
         some ((splitColon s).getD 2 "")⟩) := by
  refine ⟨?_, ?_, ?_, ?_, ?_⟩
  · intro h
    simp [Artifact.parse, h]
  all_goals intro h hg ha
  all_goals simp [h] at hg ha
  all_goals simp [Artifact.parse, Artifact.mk?, h, hg, ha]

/-- Claim C5 witness: the segment table evaluated on the spec's examples,
plus the coordinate-format failure on a 1-segment input. -/
theorem parse_segment_assignment_witness :
    Artifact.parse "g" = .error (.artifactError "invalid Maven coordinates: g") ∧
    Artifact.parse "g:a" = .ok ⟨"g", "a", none, none, none⟩ ∧
    Artifact.parse "g:a:1.0" = .ok ⟨"g", "a", some "1.0", none, none⟩ ∧
    Artifact.parse "g:a:war:1.0" = .ok ⟨"g", "a", some "1.0", none, some "war"⟩ ∧
    Artifact.parse "g:a:war:sources:1.0" = .ok ⟨"g", "a", some "1.0", some "sources", some "war"⟩ := by
  refine ⟨(parse_segment_assignment "g").1 (by decide),
    (parse_segment_assignment "g:a").2.1 (by decide) (by decide) (by decide),
    (parse_segment_assignment "g:a:1.0").2.2.1 (by decide) (by decide) (by decide),
    (parse_segment_assignment "g:a:war:1.0").2.2.2.1 (by decide) (by decide) (by decide),
    (parse_segment_assignment "g:a:war:sources:1.0").2.2.2.2 (by decide) (by decide) (by decide)⟩

/-- Claim C10: coordinate strings with 6 or more colon-segments are accepted:
group is segment 0, artifact segment 1, extension segment 2, classifier
segment 3, version the last segment, and the segments in between are
ignored. -/
theorem parse_six_plus_segments (s : String) (h6 : 6 ≤ (splitColon s).length)
    (hg : (splitColon s).getD 0 "" ≠ "") (ha : (splitColon s).getD 1 "" ≠ "") :
    Artifact.parse s = .ok ⟨(splitColon s).getD 0 "", (splitColon s).getD 1 "",
      some ((splitColon s).getLastD ""), some ((splitColon s).getD 3 ""),
      some ((splitColon s).getD 2 "")⟩ := by
  have h2 : ¬ (splitColon s).length < 2 := by omega
  have h3 : 3 ≤ (splitColon s).length := by omega
  have h4 : 4 ≤ (splitColon s).length := by omega
  have h5 : 5 ≤ (splitColon s).length := by omega
  have h0 : 0 < (splitColon s).length := by omega
  have h1 : 1 < (splitColon s).length := by omega
  simp [List.getElem?_eq_getElem h0, List.getElem?_eq_getElem h1] at hg ha
  simp [Artifact.parse, Artifact.mk?, h2, h3, h4, h5,
    List.getElem?_eq_getElem h0, List.getElem?_eq_getElem h1, hg, ha]

/-- Claim C10 witness: a 7-segment coordinate parses, taking the last segment
as the version and silently ignoring segments 4 and 5. -/
theorem parse_six_plus_segments_witness :
    Artifact.parse "g:a:war:sources:ignored1:ignored2:1.0"
      = .ok ⟨"g", "a", some "1.0", some "sources", some "war"⟩ :=
  parse_six_plus_segments "g:a:war:sources:ignored1:ignored2:1.0"
    (by decide) (by decide) (by decide)

/-- Claim C8: when the destination is not an existing directory and its parent
directory does not exist, `download` fails with the destination error before
any network access: no URL is requested, the destination file is untouched. -/
theorem dest_error_before_network (d : MavenDownloader) (md5fn : String → String)
    (remote : Remote) (art : Artifact) (local0 : Option String) (checkMode : Bool) :
    download d md5fn remote art false false local0 checkMode =
      ⟨[], false, false, local0, .error (.plainError "Destination directory does not exist")⟩ := rfl

/-- Claim C1: in check (dry-run) mode the engine still fetches the artifact
and reads its body, but `open(dest, 'w')` runs before `check_mode` is tested,
so an existing destination file is truncated to empty: its contents are NOT
preserved.  Evaluated at a destination holding `"OLD"` whose checksum differs
from the remote sidecar: the call reports changed, requests both the sidecar
and the content URL, opens the destination, writes nothing — and leaves the
file empty instead of `"OLD"`. -/
theorem check_mode_truncates_dest :
    (download exD exMd5 exRemote exArt false true (some "OLD") true).outcome = .ok true ∧
    (download exD exMd5 exRemote exArt false true (some "OLD") true).requests
      = ["http://r/g/a/1.0/a-1.0.jar.md5", "http://r/g/a/1.0/a-1.0.jar"] ∧
    (download exD exMd5 exRemote exArt false true (some "OLD") true).opened = true ∧
    (download exD exMd5 exRemote exArt false true (some "OLD") true).wrote = false ∧
    (download exD exMd5 exRemote exArt false true (some "OLD") true).file = some "" ∧
    (download exD exMd5 exRemote exArt false true (some "OLD") true).file ≠ some "OLD" :=
  ⟨rfl, rfl, rfl, rfl, rfl, by decide⟩

/-- Claim C2 counterexample: on a metadata document whose
`versioning/versions` list is empty, `_find_latest_version_available` fails
with an uncaught `IndexError` (from `findall(...)[-1]`), which is not the
module's `ArtifactError` ("artifact not found"). -/
theorem empty_version_list_raises_index_error :
    (findLatestVersionAvailable exD exRemoteEmptyMeta ⟨"g", "a", none, none, some "jar"⟩).2
      = .error (.pyError "IndexError") ∧
    MvnError.isArtifactError (.pyError "IndexError") = false :=
  ⟨rfl, rfl⟩

/-- Claim C2 (amended): latest-version resolution returns the text of the
last `<version>` element in document order (no semantic-version comparison);
when the version list is empty or missing, it fails with an uncaught
`IndexError`, not with an artifact-not-found error. -/
theorem find_latest_last_or_index_error (d : MavenDownloader) (remote : Remote)
    (art : Artifact) (res : Resource) (doc : XmlElem)
    (hreq : remote (d.base ++ "/" ++ (dotsToSlashes art.group_id ++ "/" ++ art.artifact_id)
              ++ "/maven-metadata.xml") = .ok res)
    (hdoc : res.parsed = some doc) :
    (∀ e, (findallPath doc ["versioning", "versions", "version"]).getLast? = some e →
       (findLatestVersionAvailable d remote art).2 = .ok e.text) ∧
    ((findallPath doc ["versioning", "versions", "version"]).getLast? = none →
       (findLatestVersionAvailable d remote art).2 = .error (.pyError "IndexError")) := by
  constructor
  · intro e he
    simp [findLatestVersionAvailable, Artifact.path, requestXml, hreq, hdoc, he]
  · intro he
    simp [findLatestVersionAvailable, Artifact.path, requestXml, hreq, hdoc, he]

/-- Claim C2 witness: on metadata listing versions `1.0`, `1.1`, `2.0` the
resolution yields `2.0` (the last element in document order). -/
theorem find_latest_last_witness :
    (findLatestVersionAvailable exD
      (fun u =>
        if u = "http://r/g/a/maven-metadata.xml" then
          .ok ⟨"<metadata/>", some (.node "metadata" none [.node "versioning" none
            [.node "versions" none [.node "version" (some "1.0") [],
              .node "version" (some "1.1") [], .node "version" (some "2.0") []]]])⟩
        else .connectError)
      ⟨"g", "a", none, none, some "jar"⟩).2 = .ok (some "2.0") :=
  (find_latest_last_or_index_error exD _ ⟨"g", "a", none, none, some "jar"⟩
    ⟨"<metadata/>", some (.node "metadata" none [.node "versioning" none
      [.node "versions" none [.node "version" (some "1.0") [],
        .node "version" (some "1.1") [], .node "version" (some "2.0") []]]])⟩
    (.node "metadata" none [.node "versioning" none
      [.node "versions" none [.node "version" (some "1.0") [],
        .node "version" (some "1.1") [], .node "version" (some "2.0") []]]])
    rfl rfl).1 (.node "version" (some "2.0") []) rfl

/-- Claim C6: snapshot resolution filters the `snapshotVersion` elements to
those whose `extension` child equals the coordinate's extension, then (when a
classifier is specified) to those whose `classifier` child equals it; the
first surviving element's `value` child becomes the resolved version handed
to URI construction, and an empty survivor list fails with the
artifact-not-found `ArtifactError`. -/
theorem snapshot_filter_resolution (d : MavenDownloader) (elems : List XmlElem)
    (art : Artifact) (e : XmlElem) (rest : List XmlElem) :
    (filteredSnapshots elems art = [] →
       findMatchingArtifact d elems art = .error (.artifactError "Artifact not found")) ∧
    (filteredSnapshots elems art = e :: rest →
       findMatchingArtifact d elems art = uriForArtifact d art (e.findtext "value")) := by
  constructor
  · intro h
    simp [findMatchingArtifact, h]
  · intro h
    simp [findMatchingArtifact, h]

/-- Claim C6 witness: with entries `{extension: jar, value:
1.0-20230101.120000-1}` and `{extension: pom, ...}`, requesting extension
`jar` with no classifier resolves to the first entry's value (yielding its
snapshot URL), while requesting against only the `pom` entry fails with
artifact-not-found. -/
theorem snapshot_filter_resolution_witness :
    findMatchingArtifact exD [elemJar, elemPom] exArtSnap
      = .ok "http://r/g/a/1.0-SNAPSHOT/a-1.0-20230101.120000-1.jar" ∧
    findMatchingArtifact exD [elemPom] exArtSnap
      = .error (.artifactError "Artifact not found") :=
  ⟨((snapshot_filter_resolution exD [elemJar, elemPom] exArtSnap elemJar []).2 rfl).trans rfl,
   (snapshot_filter_resolution exD [elemPom] exArtSnap elemJar []).1 rfl⟩

/-- Claim C7: the download URL is
`{base}/{group with dots replaced by slashes}/{artifact}/{version}/{artifact}-{token}[-{classifier}].{extension}`,
where the path segment uses the artifact's own (possibly `-SNAPSHOT`) version
while the filename token is the artifact's version for releases and the
resolved timestamp for snapshots; a snapshot without a previously resolved
timestamp is an `ArtifactError`. -/
theorem uri_construction (d : MavenDownloader) (art : Artifact) (v ext ts : String) :
    (art.version = some v → art.extension = some ext → strEndsWith v "SNAPSHOT" = false →
       uriForArtifact d art none
         = .ok (d.base ++ "/" ++ (dotsToSlashes art.group_id ++ "/" ++ art.artifact_id ++ "/" ++ v)
             ++ "/" ++ art.artifact_id ++ "-" ++ v
             ++ (if truthy art.classifier = true then "-" ++ art.classifier.getD "" else "")
             ++ "." ++ ext)) ∧
    (art.version = some v → art.extension = some ext → strEndsWith v "SNAPSHOT" = true → ts ≠ "" →
       uriForArtifact d art (some ts)
         = .ok (d.base ++ "/" ++ (dotsToSlashes art.group_id ++ "/" ++ art.artifact_id ++ "/" ++ v)
             ++ "/" ++ art.artifact_id ++ "-" ++ ts
             ++ (if truthy art.classifier = true then "-" ++ art.classifier.getD "" else "")
             ++ "." ++ ext)) ∧
    (art.version = some v → strEndsWith v "SNAPSHOT" = true →
       uriForArtifact d art none
         = .error (.artifactError "Expected unique version for snapshot artifact")) := by
  refine ⟨?_, ?_, ?_⟩
  · intro hv he hsnap
    by_cases hc : truthy art.classifier = true <;>
      simp [uriForArtifact, Artifact.is_snapshot, Artifact.path, hv, he, hsnap, hc, String.append_assoc]
  · intro hv he hsnap hts
    have htst : truthy (some ts) = true := by simp [truthy, hts]
    by_cases hc : truthy art.classifier = true <;>
      simp [uriForArtifact, Artifact.is_snapshot, Artifact.path, hv, he, hsnap, htst, hc, String.append_assoc]
  · intro hv hsnap
    have htn : truthy (none : Option String) = false := rfl
    simp [uriForArtifact, Artifact.is_snapshot, hv, hsnap, htn]

/-- Claim C7 witness: the spec's end-to-end example —
`org.apache.maven:maven:3.2.1` resolves to
`{base}/org/apache/maven/maven/3.2.1/maven-3.2.1.jar` — and a snapshot
coordinate without a resolved timestamp errors. -/
theorem uri_construction_witness :
    uriForArtifact (mkDownloader "http://repo1.maven.org/maven2")
      ⟨"org.apache.maven", "maven", some "3.2.1", none, some "jar"⟩ none
      = .ok "http://repo1.maven.org/maven2/org/apache/maven/maven/3.2.1/maven-3.2.1.jar" ∧
    uriForArtifact exD exArtSnap none
      = .error (.artifactError "Expected unique version for snapshot artifact") :=
  ⟨((uri_construction (mkDownloader "http://repo1.maven.org/maven2")
      ⟨"org.apache.maven", "maven", some "3.2.1", none, some "jar"⟩ "3.2.1" "jar" "t").1
      rfl rfl (by decide)).trans rfl,
   (uri_construction exD exArtSnap "1.0-SNAPSHOT" "jar" "t").2.2 rfl (by decide)⟩

/-- Claim C9: when the destination file exists and its locally recomputed
digest equals the remote checksum sidecar fetched at `{url}.md5`, `download`
reports `changed = false`, requests nothing beyond the URI-resolution and
sidecar fetches, never opens or writes the destination, and leaves its
contents untouched. -/
theorem md5_match_skips_transfer (d : MavenDownloader) (md5fn : String → String)
    (remote : Remote) (art : Artifact) (c : String) (checkMode : Bool)
    (tr2 : List String) (u nm : String) (res : Resource)
    (hver : truthy art.version = true)
    (hurl : findUriForArtifact d remote art = (tr2, .ok u))
    (hnm : art.toStr = .ok nm)
    (hmd5 : remote (u ++ ".md5") = .ok res)
    (hraw : md5fn c = res.raw) :
    download d md5fn remote art false true (some c) checkMode =
      ⟨tr2 ++ [u ++ ".md5"], false, false, some c, .ok false⟩ := by
  simp [download, isSameMd5, hver, hurl, hnm, hmd5, hraw]

/-- Claim C9 witness: a first invocation with no local file transfers the
artifact (`changed = true`); a second invocation against the unchanged remote,
with the local file now matching the sidecar, reports `changed = false` and
does not reopen or rewrite the file. -/
theorem md5_match_skips_transfer_witness :
    download exD exMd5 exRemote exArt false true none false
      = ⟨["http://r/g/a/1.0/a-1.0.jar"], true, true, some "NEW", .ok true⟩ ∧
    download exD exMd5 exRemote exArt false true (some "NEW") false
      = ⟨["http://r/g/a/1.0/a-1.0.jar.md5"], false, false, some "NEW", .ok false⟩ :=
  ⟨rfl,
   md5_match_skips_transfer exD exMd5 exRemote exArt "NEW" false
     [] "http://r/g/a/1.0/a-1.0.jar" "g:a:1.0" ⟨"HNEW", none⟩ rfl rfl rfl rfl rfl⟩

/-- Claim C4 counterexample: an invocation that aborts with an error does NOT
always leave the destination's prior contents unchanged.  When the content
request connects but the body read fails, the destination has already been
opened with mode `'w'` and truncated: the call errors out leaving the file
empty instead of holding its prior `"OLD"` contents. -/
theorem read_failure_truncates_dest :
    (download exD exMd5 exRemoteRead exArt false true (some "OLD") false).outcome
      = .error (.pyError "socket.error") ∧
    (download exD exMd5 exRemoteRead exArt false true (some "OLD") false).file = some "" ∧
    (download exD exMd5 exRemoteRead exArt false true (some "OLD") false).file ≠ some "OLD" :=
  ⟨rfl, rfl, by decide⟩

/-- Claim C4 (amended): on every error path of `download`, either the error
occurred before the destination was opened — and the destination's prior
contents are unchanged — or the error occurred while reading the content
response body after `open(dest, 'w')` had already truncated the destination,
which is then left empty. -/
theorem error_paths_dest_file (d : MavenDownloader) (md5fn : String → String)
    (remote : Remote) (art : Artifact) (destIsDir parentExists : Bool)
    (local0 : Option String) (checkMode : Bool)
    (reqs : List String) (op wr : Bool) (fl : Option String) (e : MvnError)
    (h : download d md5fn remote art destIsDir parentExists local0 checkMode
           = ⟨reqs, op, wr, fl, .error e⟩) :
    (fl = local0 ∧ op = false) ∨ (fl = some "" ∧ op = true) := by
  simp only [download] at h
  repeat' split at h
  all_goals cases h
  all_goals first
    | exact Or.inl ⟨rfl, rfl⟩
    | exact Or.inr ⟨rfl, rfl⟩

/-- Claim C4 (amended) witness: evaluated on the concrete read-failure run,
whose error leaves the destination truncated (the second disjunct). -/
theorem error_paths_dest_file_witness :
    ((some "" : Option String) = some "OLD" ∧ true = false) ∨
    ((some "" : Option String) = some "" ∧ true = true) :=
  error_paths_dest_file exD exMd5 exRemoteRead exArt false true (some "OLD") false
    ["http://r/g/a/1.0/a-1.0.jar.md5", "http://r/g/a/1.0/a-1.0.jar"]
    true false (some "") (.pyError "socket.error") rfl


/-- Membership of a defaulted index access for an in-bounds index. -/
theorem getD_mem {α : Type} (l : List α) (i : Nat) (d : α) (h : i < l.length) :
    l.getD i d ∈ l := by
  rw [List.getD_eq_getElem?_getD, List.getElem?_eq_getElem h]
  simp only [Option.getD_some]
  exact List.getElem_mem h

/-- Inversion of a successful `Artifact.parse`: the input has at least two
colon-segments, the fields are the segment-table assignments, and group and
artifact are non-empty. -/
theorem parse_ok_inversion (s : String) (art0 : Artifact)
    (h : Artifact.parse s = .ok art0) :
    2 ≤ (splitColon s).length ∧
    art0.group_id = (splitColon s).getD 0 "" ∧
    art0.artifact_id = (splitColon s).getD 1 "" ∧
    art0.group_id ≠ "" ∧
    art0.artifact_id ≠ "" ∧
    art0.version = (if 3 ≤ (splitColon s).length then some ((splitColon s).getLastD "") else none) ∧
    art0.classifier = (if 5 ≤ (splitColon s).length then some ((splitColon s).getD 3 "") else none) ∧
    art0.extension = (if 4 ≤ (splitColon s).length then some ((splitColon s).getD 2 "") else none) := by
  unfold Artifact.parse Artifact.mk? at h
  split at h
  · cases h
  · split at h
    · cases h
    · rename_i hlt hne
      cases h
      push_neg at hne
      exact ⟨by omega, rfl, rfl, hne.1, hne.2, rfl, rfl, rfl⟩

/-- Serialization `Artifact.__str__` on a coordinate with extension `jar` and no
classifier: the extension and classifier segments are omitted, the version
appended only when truthy. -/
theorem toStr_of_jar_no_classifier (art : Artifact) (hext : art.extension = some "jar")
    (hcl : art.classifier = none) :
    art.toStr = .ok (intercalateColon ([art.group_id, art.artifact_id] ++
      (if truthy art.version = true then [art.version.getD ""] else []))) := by
  unfold Artifact.toStr joinOpt
  cases hv : art.version with
  | none => simp [hext, hcl, truthy]
  | some v =>
    by_cases hve : v = ""
    · simp [hext, hcl, truthy, hve]
    · simp [hext, hcl, truthy, hve]
/-- Claim C3 (amended): for every coordinate string that the module ingestion
path (`Artifact.parse` followed by `main()`'s default filling, `parseCoord`)
accepts as a coordinate with extension `jar` and no classifier, serialization
succeeds and re-parsing the canonical string through the same ingestion path
yields exactly the same coordinate (hence serialization is idempotent).  At
the raw `Artifact.parse`/`__str__` level the round trip is not the identity:
an explicit `jar` extension segment is dropped by serialization and comes
back as an absent extension. -/
theorem parse_serialize_round_trip (s : String) (art : Artifact)
    (hp : parseCoord s = .ok art)
    (hext : art.extension = some "jar")
    (hcl : art.classifier = none) :
    ∃ s2, art.toStr = .ok s2 ∧ parseCoord s2 = .ok art := by
  unfold parseCoord at hp
  cases hp0 : Artifact.parse s with
  | error e => rw [hp0] at hp; cases hp
  | ok art0 =>
    rw [hp0] at hp
    simp only [Except.map] at hp
    have hart : art = { art0 with
        version := orOpt art0.version none,
        classifier := orOpt art0.classifier none,
        extension := orOpt art0.extension (some "jar") } := by
      cases hp
      rfl
    obtain ⟨hlen, hg, ha, hgne, hane, hver, hclas0, hextn0⟩ := parse_ok_inversion s art0 hp0
    have hG : art.group_id = art0.group_id := by rw [hart]
    have hA : art.artifact_id = art0.artifact_id := by rw [hart]
    have hGmem : art.group_id ∈ splitColon s := by
      rw [hG, hg]
      exact getD_mem _ 0 "" (by omega)
    have hAmem : art.artifact_id ∈ splitColon s := by
      rw [hA, ha]
      exact getD_mem _ 1 "" (by omega)
    have hGfree := colon_not_mem_of_mem_splitColon s _ hGmem
    have hAfree := colon_not_mem_of_mem_splitColon s _ hAmem
    have hGne : art.group_id ≠ "" := by rw [hG]; exact hgne
    have hAne : art.artifact_id ≠ "" := by rw [hA]; exact hane
    have hvd : art.version = none ∨
        ∃ v, art.version = some v ∧ v ≠ "" ∧ ':' ∉ v.data := by
      have hv' : art.version = orOpt art0.version none := by rw [hart]
      rw [hver] at hv'
      by_cases h3 : 3 ≤ (splitColon s).length
      · rw [if_pos h3] at hv'
        by_cases hL : (splitColon s).getLastD "" = ""
        · left
          rw [hL] at hv'
          rw [hv']
          rfl
        · right
          have htL : truthy (some ((splitColon s).getLastD "")) = true := decide_eq_true hL
          refine ⟨(splitColon s).getLastD "", ?_, hL, ?_⟩
          · rw [hv']
            simp only [orOpt, htL, if_pos]
          · exact colon_not_mem_of_mem_splitColon s _
              (getLastD_mem _ "" (by intro hnil; rw [hnil] at hlen; simp at hlen))
      · rw [if_neg h3] at hv'
        left
        rw [hv']
        rfl
    rcases hvd with hvnone | ⟨v, hvsome, hvne, hvfree⟩
    · refine ⟨intercalateColon [art.group_id, art.artifact_id], ?_, ?_⟩
      · rw [toStr_of_jar_no_classifier art hext hcl, hvnone]
        simp [truthy]
      · have hsplit2 : splitColon (intercalateColon [art.group_id, art.artifact_id])
            = [art.group_id, art.artifact_id] := by
          refine splitColon_intercalateColon _ (by simp) ?_
          intro p hp2
          rcases List.mem_cons.mp hp2 with h1 | h1
          · subst h1
            exact hGfree
          · rcases List.mem_cons.mp h1 with h2 | h2
            · subst h2
              exact hAfree
            · simp at h2
        have hparse2 : Artifact.parse (intercalateColon [art.group_id, art.artifact_id])
            = .ok ⟨art.group_id, art.artifact_id, none, none, none⟩ := by
          unfold Artifact.parse
          rw [hsplit2]
          simp [Artifact.mk?, hGne, hAne]
        have hrep : art = ⟨art.group_id, art.artifact_id, none, none, some "jar"⟩ := by
          have e1 : art = ⟨art.group_id, art.artifact_id, art.version, art.classifier, art.extension⟩ := rfl
          rw [hvnone, hcl, hext] at e1
          exact e1
        rw [parseCoord, hparse2]
        simp only [Except.map]
        rw [hrep]
        simp [orOpt, truthy]
    · refine ⟨intercalateColon [art.group_id, art.artifact_id, v], ?_, ?_⟩
      · rw [toStr_of_jar_no_classifier art hext hcl, hvsome]
        simp [truthy, hvne]
      · have hsplit2 : splitColon (intercalateColon [art.group_id, art.artifact_id, v])
            = [art.group_id, art.artifact_id, v] := by
          refine splitColon_intercalateColon _ (by simp) ?_
          intro p hp2
          rcases List.mem_cons.mp hp2 with h1 | h1
          · subst h1
            exact hGfree
          · rcases List.mem_cons.mp h1 with h2 | h2
            · subst h2
              exact hAfree
            · rcases List.mem_cons.mp h2 with h3 | h3
              · subst h3
                exact hvfree
              · simp at h3
        have hparse2 : Artifact.parse (intercalateColon [art.group_id, art.artifact_id, v])
            = .ok ⟨art.group_id, art.artifact_id, some v, none, none⟩ := by
          unfold Artifact.parse
          rw [hsplit2]
          simp [Artifact.mk?, hGne, hAne]
        have hrep : art = ⟨art.group_id, art.artifact_id, some v, none, some "jar"⟩ := by
          have e1 : art = ⟨art.group_id, art.artifact_id, art.version, art.classifier, art.extension⟩ := rfl
          rw [hvsome, hcl, hext] at e1
          exact e1
        rw [parseCoord, hparse2]
        simp only [Except.map]
        rw [hrep]
        simp [orOpt, truthy, hvne]

/-- Claim C3 counterexample: the round trip is not the identity on raw
parse/serialize.  `"g:a:jar:1.0"` has at least 2 segments, extension exactly
`"jar"` and no classifier, yet serializing its parse yields `"g:a:1.0"`,
whose parse has `extension = none` — not the same coordinate. -/
theorem roundtrip_drops_jar_extension :
    Artifact.parse "g:a:jar:1.0" = .ok ⟨"g", "a", some "1.0", none, some "jar"⟩ ∧
    Artifact.toStr ⟨"g", "a", some "1.0", none, some "jar"⟩ = .ok "g:a:1.0" ∧
    Artifact.parse "g:a:1.0" = .ok ⟨"g", "a", some "1.0", none, none⟩ ∧
    (⟨"g", "a", some "1.0", none, none⟩ : Artifact) ≠ ⟨"g", "a", some "1.0", none, some "jar"⟩ :=
  ⟨rfl, rfl, rfl, by decide⟩

/-- Claim C3 (amended) witness: the round trip applied to the concrete
coordinate parsed from `"g:a:jar:1.0"` by the ingestion path. -/
theorem parse_serialize_round_trip_witness :
    ∃ s2, Artifact.toStr ⟨"g", "a", some "1.0", none, some "jar"⟩ = .ok s2 ∧
      parseCoord s2 = .ok ⟨"g", "a", some "1.0", none, some "jar"⟩ :=
  parse_serialize_round_trip "g:a:jar:1.0" ⟨"g", "a", some "1.0", none, some "jar"⟩
    rfl rfl rfl

end MvnGet
